import Mathlib

/-!
Verification of the olmocr-fastapi job-lifecycle service (`main.py`).

The embedding models the in-memory task registry (`TASKS`), the background
processor `process_document`, the request handlers `upload_document`,
`get_task_status`, `get_task_result`, and the credential / token helpers
`verify_password`, `authenticate_user`, `get_user`, `get_current_user`.

External effects (directory creation, the OCR subprocess, globbing the
markdown directory, reading the markdown file, reading upload chunks) are
modelled as explicit inputs; the mutable module state (task registry, files
in the working directory, temporary files) is threaded as an explicit store.
-/

deriving instance DecidableEq for Except

namespace Olmocr

/-- An HTTP error raised by a handler (`HTTPException`): status code, detail
string, and whether a `WWW-Authenticate: Bearer` challenge header is set. -/
structure HError where
  code : Nat
  detail : String
  wwwAuthBearer : Bool := false
deriving Repr, DecidableEq

/-- A job record, one entry of the `TASKS` dictionary created by
`upload_document`.  `user` is `none` when the `"user"` key is absent
(the ownership check in the query handlers tests `"user" in task`). -/
structure Task where
  status : String
  file_path : String
  created_at : String
  result : Option String
  result_path : Option String
  error : Option String
  user : Option String
deriving Repr, DecidableEq

/-- Lookup in the `TASKS` registry (`TASKS[task_id]` / `task_id in TASKS`). -/
def lookupTask : List (String × Task) → String → Option Task
  | [], _ => none
  | (k, v) :: rest, i => if k = i then some v else lookupTask rest i

/-- Response model `OCRStatus` (pydantic defaults: progress 0.0,
result_path None, error None). -/
structure OCRStatus where
  task_id : String
  status : String
  progress : Rat := 0
  result_path : Option String := none
  error : Option String := none
  created_at : String
deriving Repr, DecidableEq

/-- The `metadata` dictionary returned by `get_task_result`. -/
structure OCRMeta where
  created_at : String
  file_path : String
  result_path : Option String
deriving Repr, DecidableEq

/-- Response model `OCRResult`. -/
structure OCRResult where
  task_id : String
  text : String
  metadata : OCRMeta
deriving Repr, DecidableEq

/-! ### The background processor `process_document` (main.py lines 196-261)

Its interactions with the outside world are collected in `ProcEnv`:
the outcome of `workspace_path.mkdir(exist_ok=True)`, the subprocess
return code and captured stderr, whether `workspace/markdown` exists, the
list returned by `markdown_dir.glob("**/*.md")`, and the outcome of
reading a markdown file as UTF-8 (which can raise, e.g. a decode error).
`Except.error e` models a raised exception with message `e`. -/

structure ProcEnv where
  mkdirResult : Except String Unit
  returncode : Int
  stderrText : String
  markdownDirExists : Bool
  globResults : List String
  readMd : String → Except String String

/-- The sentinel error recorded when the subprocess succeeds but no markdown
file is found (main.py line 257). -/
def noResultSentinel : String := "处理完成但未找到结果文件"

/-- The body of `process_document`'s `try:` block.  Returns the updated task
and the list of statuses assigned, or — when an exception is raised — the
exception message together with the task state and status log at the raise
point (the registry entry is mutated in place, so updates made before the
exception survive). -/
def processTry (env : ProcEnv) (t : Task) :
    Except (String × Task × List String) (Task × List String) :=
  match env.mkdirResult with
  | .error e => .error (e, t, [])
  | .ok _ =>
    let t1 : Task := { t with status := "processing" }
    if env.returncode != 0 then
      .ok ({ t1 with status := "failed", error := some env.stderrText },
           ["processing", "failed"])
    else
      match (if env.markdownDirExists then env.globResults else []) with
      | md_file :: _ =>
        match env.readMd md_file with
        | .error e => .error (e, t1, ["processing"])
        | .ok text_content =>
          .ok ({ t1 with
                  status := "completed"
                  result := some text_content
                  result_path := some md_file },
               ["processing", "completed"])
      | [] =>
        .ok ({ t1 with status := "failed", error := some noResultSentinel },
             ["processing", "failed"])

/-- `process_document`: runs the try block; the `except` handler records the
fault into the current task state (`status := failed`, `error := str(e)`).
Returns the final task together with the ordered list of statuses assigned
to the registry entry during the run. -/
def process_document (env : ProcEnv) (t : Task) : Task × List String :=
  match processTry env t with
  | .ok r => r
  | .error (e, t1, log) =>
    ({ t1 with status := "failed", error := some e }, log ++ ["failed"])

/-- The full sequence of `status` values the job visits, starting from its
current status (for a fresh upload this is `"queued"`). -/
def visitedStatuses (env : ProcEnv) (t : Task) : List String :=
  t.status :: (process_document env t).2

/-- `True` on an `Option String` holding a non-empty string (`bool(x)` on a
Python `Optional[str]`). -/
def optNonEmpty : Option String → Bool
  | none => false
  | some s => !s.isEmpty

/-! ### Query handlers (main.py lines 357-428) -/

/-- 404 raised for an unknown task id. -/
def notFoundErr : HError := { code := 404, detail := "任务不存在" }

/-- 403 raised by the ownership check. -/
def forbiddenErr : HError := { code := 403, detail := "无权访问此任务" }

/-- 400 raised by `get_task_result` when the task is not completed. -/
def notCompletedErr (st : String) : HError :=
  { code := 400, detail := "任务尚未完成，当前状态: " ++ st }

/-- 404 raised by `get_task_result` when the stored result is missing/empty. -/
def resultMissingErr : HError := { code := 404, detail := "结果不存在" }

/-- The ownership test `"user" in task and task["user"] != current_user.username`. -/
def ownerMismatch (t : Task) (current_user : String) : Bool :=
  match t.user with
  | some owner => owner != current_user
  | none => false

/-- `GET /ocr/status/\x7btask_id\x7d` (main.py lines 357-384). -/
def get_task_status (tasks : List (String × Task)) (task_id current_user : String) :
    Except HError OCRStatus :=
  match lookupTask tasks task_id with
  | none => .error notFoundErr
  | some task =>
    if ownerMismatch task current_user then
      .error forbiddenErr
    else
      .ok { task_id := task_id
            status := task.status
            progress := if task.status = "completed" then 1
                        else if task.status = "processing" then (1 : Rat) / 2 else 0
            result_path := task.result_path
            error := task.error
            created_at := task.created_at }

/-- `GET /ocr/result/\x7btask_id\x7d` (main.py lines 386-428).
`task.get("result")` is falsy both for `None` and for the empty string. -/
def get_task_result (tasks : List (String × Task)) (task_id current_user : String) :
    Except HError OCRResult :=
  match lookupTask tasks task_id with
  | none => .error notFoundErr
  | some task =>
    if ownerMismatch task current_user then
      .error forbiddenErr
    else if task.status != "completed" then
      .error (notCompletedErr task.status)
    else if !(optNonEmpty task.result) then
      .error resultMissingErr
    else
      .ok { task_id := task_id
            text := task.result.getD ""
            metadata := { created_at := task.created_at
                          file_path := task.file_path
                          result_path := task.result_path } }

/-! ### Credential store and token resolution (main.py lines 142-193) -/

/-- One entry of `fake_users_db`. -/
structure UserInDB where
  username : String
  hashed_password : String
deriving Repr, DecidableEq

/-- `get_user`: dictionary lookup in the user store. -/
def lookupUser : List (String × UserInDB) → String → Option UserInDB
  | [], _ => none
  | (k, v) :: rest, u => if k = u then some v else lookupUser rest u

/-- Computable model of Python's `str.startswith` (Lean's
`String.startsWith` is opaque to the kernel). -/
def strStartsWith (s pre : String) : Bool := pre.data.isPrefixOf s.data

/-- Computable model of Python's `str.lower` for ASCII names (Lean's
`String.toLower` is opaque to the kernel). -/
def strToLower (s : String) : String := String.mk (s.data.map Char.toLower)

/-- `verify_password` (main.py lines 142-147): direct string comparison unless
the stored value starts with the bcrypt marker, in which case the bcrypt
verify function (modelled as the opaque parameter `bcryptVerify`) decides. -/
def verify_password (bcryptVerify : String → String → Bool)
    (plain_password hashed_password : String) : Bool :=
  if !(strStartsWith hashed_password "$2b$") then
    plain_password == hashed_password
  else
    bcryptVerify plain_password hashed_password

/-- `authenticate_user` (main.py lines 158-164): `none` models Python `False`. -/
def authenticate_user (bcryptVerify : String → String → Bool)
    (db : List (String × UserInDB)) (username password : String) : Option UserInDB :=
  match lookupUser db username with
  | none => none
  | some user =>
    if verify_password bcryptVerify password user.hashed_password then some user
    else none

/-- The 401 `credentials_exception` of `get_current_user`, with its
`WWW-Authenticate: Bearer` header. -/
def credentialsException : HError :=
  { code := 401, detail := "无效的认证凭据", wwwAuthBearer := true }

/-- The decoded JWT payload: the `sub` claim, if present. -/
structure TokenPayload where
  sub : Option String
deriving Repr, DecidableEq

/-- `get_current_user` (main.py lines 176-193).  `decoded` is the outcome of
`jwt.decode` — `Except.error ()` models a raised `JWTError` (bad signature or
expired token). -/
def get_current_user (db : List (String × UserInDB))
    (decoded : Except Unit TokenPayload) : Except HError UserInDB :=
  match decoded with
  | .error _ => .error credentialsException
  | .ok payload =>
    match payload.sub with
    | none => .error credentialsException
    | some username =>
      match lookupUser db username with
      | none => .error credentialsException
      | some user => .ok user

/-! ### The upload handler `upload_document` (main.py lines 285-355)

The module-level state touched by the handler is threaded as a `Store`:
the task registry `TASKS`, the files persisted under the working directory,
and the temporary files currently on disk.  The byte stream of the upload
is a list of `file.read(chunk_size)` outcomes: `Except.ok n` a chunk of `n`
bytes (`n = 0` is end of stream), `Except.error e` a raised exception. -/

structure Store where
  tasks : List (String × Task)
  workFiles : List String
  tempFiles : List String
deriving Repr, DecidableEq

/-- Outcome of one call of `upload_document`: the HTTP result, the state
left behind, and whether the `uuid.uuid4()` call (main.py line 323) that
generates a job identifier was reached. -/
structure UploadOutcome where
  result : Except HError OCRStatus
  store : Store
  idGenerated : Bool
deriving Repr, DecidableEq

/-- `pathlib`'s suffix rule for a bare file name: the substring from the last
dot, empty when there is no dot, the name starts with its only dot, or the
dot is last. -/
def rfindChar (c : Char) (cs : List Char) : Option Nat :=
  match cs.reverse.findIdx? (· = c) with
  | none => none
  | some j => some (cs.length - 1 - j)

def pathSuffix (name : String) : String :=
  let cs := name.data
  match rfindChar '.' cs with
  | none => ""
  | some i => if 0 < i ∧ i + 1 < cs.length then String.mk (cs.drop i) else ""

/-- 400 raised for a disallowed extension (main.py lines 292-295). -/
def extErr (allowed : List String) : HError :=
  { code := 400, detail := "不支持的文件格式，仅支持: " ++ String.intercalate ", " allowed }

/-- 413 raised when the accumulated size exceeds the limit (main.py 314-317). -/
def payloadTooLargeErr (maxMB : Nat) : HError :=
  { code := 413, detail := "文件大小超过限制，最大允许: " ++ toString maxMB ++ "MB" }

/-- How the `while True` read loop exits. -/
inductive LoopExit where
  | done (size : Nat)
  | tooLarge (size : Nat)
  | fault (e : String)
deriving Repr, DecidableEq

/-- The read loop of `upload_document` (main.py lines 305-318): accumulate
`file_size += len(chunk)` and raise 413 as soon as it exceeds the limit.
A zero-length chunk (`if not chunk`) breaks the loop; the end of the list is
`file.read` returning `b""` forever. -/
def recvLoop (limit : Nat) : List (Except String Nat) → Nat → LoopExit
  | [], size => .done size
  | .error e :: _, _ => .fault e
  | .ok c :: rest, size =>
    if c = 0 then .done size
    else
      let size1 := size + c
      if size1 > limit then .tooLarge size1
      else recvLoop limit rest size1

/-- `os.unlink(temp_file.name)`; unlinking a name that is not present is the
swallowed `except: pass` of the `finally` block. -/
def unlinkTemp (st : Store) (tempName : String) : Store :=
  { st with tempFiles := st.tempFiles.filter (fun s => s != tempName) }

/-- The task record created by `upload_document` (main.py lines 332-340). -/
def queuedTask (file_path now username : String) : Task :=
  { status := "queued"
    file_path := file_path
    created_at := now
    result := none
    result_path := none
    error := none
    user := some username }

/-- `POST /ocr/upload` (main.py lines 285-355).  `freshId` is the value the
`uuid.uuid4()` call would return, `now` the creation timestamp, `tempName`
the name of the `NamedTemporaryFile`, `reads` the upload byte stream.
`shutil.copy` and `temp_file.write` are treated as succeeding; every path
out of the `try` runs the `finally` unlink. -/
def upload_document (maxMB : Nat) (allowed : List String)
    (freshId now username filename tempName : String)
    (reads : List (Except String Nat)) (st : Store) : UploadOutcome :=
  let file_ext := pathSuffix (strToLower filename)
  if !(allowed.contains file_ext) then
    { result := .error (extErr allowed), store := st, idGenerated := false }
  else
    let st1 : Store := { st with tempFiles := st.tempFiles ++ [tempName] }
    match recvLoop (maxMB * 1024 * 1024) reads 0 with
    | .tooLarge _ =>
      { result := .error (payloadTooLargeErr maxMB)
        store := unlinkTemp st1 tempName
        idGenerated := false }
    | .fault e =>
      { result := .error { code := 500, detail := e }
        store := unlinkTemp st1 tempName
        idGenerated := false }
    | .done _ =>
      let task_id := freshId
      let file_path := task_id ++ "_" ++ filename
      let st2 : Store :=
        { st1 with
            workFiles := st1.workFiles ++ [file_path]
            tasks := st1.tasks ++ [(task_id, queuedTask file_path now username)] }
      { result := .ok { task_id := task_id, status := "queued", created_at := now }
        store := unlinkTemp st2 tempName
        idGenerated := true }

/-- The number of bytes actually received from the stream (sum of chunk
lengths), for stating the size-boundary property. -/
def chunkSum : List (Except String Nat) → Nat
  | [] => 0
  | .ok n :: rest => n + chunkSum rest
  | .error _ :: rest => chunkSum rest

/-- A well-formed read event: a successfully read, non-empty chunk
(a real `file.read` yields non-empty chunks until end of stream). -/
def goodRead : Except String Nat → Bool
  | .ok n => n != 0
  | .error _ => false

/-! ### Concrete fixtures used by witnesses and counterexamples -/

/-- A freshly created job record, exactly as `upload_document` stores it. -/
def taskFresh : Task :=
  { status := "queued"
    file_path := "id0_a.pdf"
    created_at := "2024-01-01T00:00:00"
    result := none
    result_path := none
    error := none
    user := some "alice" }

/-- An environment where `workspace_path.mkdir` raises. -/
def envMkdirFail : ProcEnv :=
  { mkdirResult := .error "Permission denied"
    returncode := 0
    stderrText := ""
    markdownDirExists := false
    globResults := []
    readMd := fun _ => .ok "" }

/-- An environment where the pipeline succeeds and produces one markdown
file whose contents are empty. -/
def envEmptyMd : ProcEnv :=
  { mkdirResult := .ok ()
    returncode := 0
    stderrText := ""
    markdownDirExists := true
    globResults := ["m.md"]
    readMd := fun _ => .ok "" }

/-- An environment where the pipeline succeeds but produces no markdown file. -/
def envNoMd : ProcEnv :=
  { mkdirResult := .ok ()
    returncode := 0
    stderrText := ""
    markdownDirExists := true
    globResults := []
    readMd := fun _ => .ok "x" }

/-- The empty module state. -/
def store0 : Store := { tasks := [], workFiles := [], tempFiles := [] }

/-! ### Shared helper lemmas -/

theorem not_mem_filter_bne_self (l : List String) (t : String) :
    t ∉ l.filter (fun s => s != t) := by
  intro h
  rw [List.mem_filter] at h
  simp at h

theorem filter_bne_append_self (l : List String) (t : String) (h : t ∉ l) :
    (l ++ [t]).filter (fun s => s != t) = l := by
  rw [List.filter_append]
  have h1 : ([t].filter (fun s => s != t)) = [] := by simp
  have h2 : l.filter (fun s => s != t) = l := by
    rw [List.filter_eq_self]
    intro a ha
    rw [bne_iff_ne]
    intro he
    exact h (he ▸ ha)
  rw [h1, h2, List.append_nil]

theorem ownerMismatch_true {t : Task} {owner caller : String}
    (ho : t.user = some owner) (hne : owner ≠ caller) :
    ownerMismatch t caller = true := by
  unfold ownerMismatch
  rw [ho]
  rwa [bne_iff_ne]

theorem ownerMismatch_false_of_owner {t : Task} {caller : String}
    (ho : t.user = some caller) : ownerMismatch t caller = false := by
  unfold ownerMismatch
  rw [ho]
  simp

/-! ### Claims -/

/-- C3: for every job whose owner field is set and every authenticated caller
whose username differs from that owner, both the status query and the result
query fail with the 403 Forbidden error and return no job contents (the
response is exactly the error value, which carries no job fields). -/
theorem ownership_enforced (tasks : List (String × Task))
    (task_id caller owner : String) (task : Task)
    (hl : lookupTask tasks task_id = some task)
    (ho : task.user = some owner) (hne : owner ≠ caller) :
    get_task_status tasks task_id caller = .error forbiddenErr ∧
    get_task_result tasks task_id caller = .error forbiddenErr ∧
    forbiddenErr.code = 403 := by
  have hm := ownerMismatch_true ho hne
  refine ⟨?_, ?_, rfl⟩
  · unfold get_task_status
    rw [hl]
    simp [hm]
  · unfold get_task_result
    rw [hl]
    simp [hm]

/-- Witness for C3 at a concrete registry: `bob` queries `alice`'s job. -/
theorem ownership_enforced_witness :
    get_task_status [("j1", taskFresh)] "j1" "bob" = .error forbiddenErr ∧
    get_task_result [("j1", taskFresh)] "j1" "bob" = .error forbiddenErr ∧
    forbiddenErr.code = 403 :=
  ownership_enforced [("j1", taskFresh)] "j1" "bob" "alice" taskFresh rfl rfl
    (by decide)

/-- C5: a result query on a known job owned by the caller fails with the 400
invalid-state error when the status is not `completed`, fails with the 404
missing-result error when the status is `completed` but the stored result is
absent or empty, and otherwise returns the result text together with the
creation timestamp, source file path and result path. -/
theorem result_query_spec (tasks : List (String × Task))
    (task_id caller : String) (task : Task)
    (hl : lookupTask tasks task_id = some task)
    (ho : task.user = some caller) :
    (task.status ≠ "completed" →
      get_task_result tasks task_id caller = .error (notCompletedErr task.status)) ∧
    (task.status = "completed" → optNonEmpty task.result = false →
      get_task_result tasks task_id caller = .error resultMissingErr) ∧
    (∀ s, task.status = "completed" → task.result = some s → s ≠ "" →
      get_task_result tasks task_id caller =
        .ok { task_id := task_id
              text := s
              metadata := { created_at := task.created_at
                            file_path := task.file_path
                            result_path := task.result_path } }) ∧
    (notCompletedErr task.status).code = 400 ∧ resultMissingErr.code = 404 := by
  have hm := ownerMismatch_false_of_owner ho
  refine ⟨?_, ?_, ?_, rfl, rfl⟩
  · intro hst
    unfold get_task_result
    rw [hl]
    simp [hm, hst]
  · intro hst hres
    unfold get_task_result
    rw [hl]
    simp [hm, hst, hres]
  · intro s hst hres hs
    unfold get_task_result
    rw [hl]
    have hie : s.isEmpty = false := by
      cases h : s.isEmpty
      · rfl
      · exact absurd ((String.isEmpty_iff s).mp h) hs
    simp [hm, hst, hres, optNonEmpty, hie]

/-- A completed job holding the result text `"Hello"`. -/
def completedHello : Task :=
  { taskFresh with
      status := "completed"
      result := some "Hello"
      result_path := some "m.md" }

/-- Witness for C5 on a completed job with result text `"Hello"`. -/
theorem result_query_spec_witness :
    get_task_result [("j2", completedHello)] "j2" "alice" =
      .ok { task_id := "j2"
            text := "Hello"
            metadata := { created_at := completedHello.created_at
                          file_path := completedHello.file_path
                          result_path := some "m.md" } } :=
  (result_query_spec [("j2", completedHello)] "j2" "alice" completedHello
      rfl rfl).2.2.1 "Hello" rfl rfl (by decide)

/-- C8: credential verification returns false when no record is stored for the
username; with a stored bcrypt-format value it returns the bcrypt verify
result; with a stored legacy plaintext value it returns direct equality. -/
theorem password_verification_spec (bv : String → String → Bool)
    (db : List (String × UserInDB)) (u pw : String) :
    (lookupUser db u = none → authenticate_user bv db u pw = none) ∧
    (∀ r, lookupUser db u = some r → strStartsWith r.hashed_password "$2b$" = true →
      (authenticate_user bv db u pw).isSome = bv pw r.hashed_password) ∧
    (∀ r, lookupUser db u = some r → strStartsWith r.hashed_password "$2b$" = false →
      (authenticate_user bv db u pw).isSome = (pw == r.hashed_password)) := by
  refine ⟨?_, ?_, ?_⟩
  · intro h
    unfold authenticate_user
    rw [h]
  · intro r hr hsw
    unfold authenticate_user verify_password
    rw [hr]
    simp only [hsw, Bool.not_true, Bool.false_eq_true, if_false]
    cases bv pw r.hashed_password <;> simp
  · intro r hr hsw
    unfold authenticate_user verify_password
    rw [hr]
    simp only [hsw, Bool.not_false, if_true]
    cases h : (pw == r.hashed_password) <;> simp [h]

/-- Witness for C8: the default config's plaintext `admin`/`secret` account. -/
theorem password_verification_spec_witness :
    (authenticate_user (fun _ _ => false)
        [("admin", { username := "admin", hashed_password := "secret" })]
        "admin" "secret").isSome = ("secret" == "secret") :=
  (password_verification_spec (fun _ _ => false)
      [("admin", { username := "admin", hashed_password := "secret" })]
      "admin" "secret").2.2 { username := "admin", hashed_password := "secret" }
    rfl (by decide)

/-- C10: with a successfully decoded token whose subject claim is present,
request resolution fails with the 401 credentials exception (carrying the
Bearer challenge header) when the subject is not in the user store, and
returns the stored user when it is. -/
theorem unknown_subject_rejected (db : List (String × UserInDB))
    (payload : TokenPayload) (u : String) (hsub : payload.sub = some u) :
    (lookupUser db u = none →
      get_current_user db (.ok payload) = .error credentialsException) ∧
    (∀ user, lookupUser db u = some user →
      get_current_user db (.ok payload) = .ok user) ∧
    credentialsException.code = 401 ∧ credentialsException.wwwAuthBearer = true := by
  refine ⟨?_, ?_, rfl, rfl⟩
  · intro h
    simp only [get_current_user, hsub, h]
  · intro user h
    simp only [get_current_user, hsub, h]

/-- Witness for C10: a valid token for the unknown user `ghost` against the
store holding only `admin`. -/
theorem unknown_subject_rejected_witness :
    get_current_user [("admin", { username := "admin", hashed_password := "secret" })]
        (.ok { sub := some "ghost" }) = .error credentialsException :=
  (unknown_subject_rejected
      [("admin", { username := "admin", hashed_password := "secret" })]
      { sub := some "ghost" } "ghost" rfl).1 rfl

/-- C1 (amended): a job that starts at `queued` visits
`[queued, processing, completed]` or `[queued, processing, failed]` —
except that a fault raised while creating the workspace directory, before
the `processing` status is recorded, moves the job directly from `queued`
to `failed`. -/
theorem lifecycle_trace (env : ProcEnv) (t : Task) (hq : t.status = "queued") :
    ((∃ e, env.mkdirResult = .error e) ∧
      visitedStatuses env t = ["queued", "failed"]) ∨
    visitedStatuses env t = ["queued", "processing", "completed"] ∨
    visitedStatuses env t = ["queued", "processing", "failed"] := by
  unfold visitedStatuses process_document processTry
  rcases hmk : env.mkdirResult with e | u
  · exact Or.inl ⟨⟨e, rfl⟩, by simp [hq]⟩
  · cases hrc : (env.returncode != 0)
    · rcases hg : (if env.markdownDirExists then env.globResults else []) with
        _ | ⟨md_file, rest⟩
      · exact Or.inr (Or.inr (by simp [hq, hrc, hg]))
      · rcases hr : env.readMd md_file with e | content
        · exact Or.inr (Or.inr (by simp [hq, hrc, hg, hr]))
        · exact Or.inr (Or.inl (by simp [hq, hrc, hg, hr]))
    · exact Or.inr (Or.inr (by simp [hq, hrc]))

/-- Witness for C1's amended theorem at a concrete environment: a successful
run visits `[queued, processing, completed]`. -/
theorem lifecycle_trace_witness :
    ((∃ e, envEmptyMd.mkdirResult = .error e) ∧
      visitedStatuses envEmptyMd taskFresh = ["queued", "failed"]) ∨
    visitedStatuses envEmptyMd taskFresh = ["queued", "processing", "completed"] ∨
    visitedStatuses envEmptyMd taskFresh = ["queued", "processing", "failed"] :=
  lifecycle_trace envEmptyMd taskFresh rfl

/-- Counterexample to C1 as stated: when `workspace_path.mkdir` raises, the
job's visited status sequence is `[queued, failed]`, which is none of the
non-empty sequences the claim allows — `processing` is skipped. -/
theorem lifecycle_trace_cex :
    visitedStatuses envMkdirFail taskFresh = ["queued", "failed"] ∧
    ¬(visitedStatuses envMkdirFail taskFresh = ["queued"] ∨
      visitedStatuses envMkdirFail taskFresh = ["queued", "processing"] ∨
      visitedStatuses envMkdirFail taskFresh = ["queued", "processing", "completed"] ∨
      visitedStatuses envMkdirFail taskFresh = ["queued", "processing", "failed"]) :=
  ⟨rfl, by decide⟩

/-- C2 (amended): starting from a job whose result and error are both unset,
the processor leaves the two mutually exclusive — at most one is a non-empty
string; a failed job has no result text; a completed job has an empty error
and a present result text (the markdown file's contents, possibly empty). -/
theorem result_error_exclusive (env : ProcEnv) (t : Task)
    (hres : t.result = none) (herr : t.error = none) :
    ¬(optNonEmpty (process_document env t).1.result = true ∧
      optNonEmpty (process_document env t).1.error = true) ∧
    ((process_document env t).1.status = "failed" →
      (process_document env t).1.result = none) ∧
    ((process_document env t).1.status = "completed" →
      (process_document env t).1.error = none ∧
      (process_document env t).1.result.isSome = true) := by
  unfold process_document processTry
  rcases hmk : env.mkdirResult with e | u
  · simp [hres, optNonEmpty]
  · cases hrc : (env.returncode != 0)
    · rcases hg : (if env.markdownDirExists then env.globResults else []) with
        _ | ⟨md_file, rest⟩
      · simp [hrc, hg, hres, optNonEmpty]
      · rcases hr : env.readMd md_file with e | content
        · simp [hrc, hg, hr, hres, optNonEmpty]
        · simp [hrc, hg, hr, herr, optNonEmpty]
    · simp [hrc, hres, optNonEmpty]

/-- Witness for C2's amended theorem on a fresh job and a failing subprocess
environment. -/
theorem result_error_exclusive_witness :
    ¬(optNonEmpty (process_document envNoMd taskFresh).1.result = true ∧
      optNonEmpty (process_document envNoMd taskFresh).1.error = true) ∧
    ((process_document envNoMd taskFresh).1.status = "failed" →
      (process_document envNoMd taskFresh).1.result = none) ∧
    ((process_document envNoMd taskFresh).1.status = "completed" →
      (process_document envNoMd taskFresh).1.error = none ∧
      (process_document envNoMd taskFresh).1.result.isSome = true) :=
  result_error_exclusive envNoMd taskFresh rfl rfl

/-- Counterexample to C2 as stated: when the subprocess succeeds and the
markdown artifact exists but is empty, the job completes with result text
`""` — a completed job whose result text is not non-empty. -/
theorem result_error_exclusive_cex :
    (process_document envEmptyMd taskFresh).1.status = "completed" ∧
    (process_document envEmptyMd taskFresh).1.result = some "" ∧
    optNonEmpty (process_document envEmptyMd taskFresh).1.result = false :=
  ⟨rfl, rfl, rfl⟩

/-- C6 (amended): when `mkdir` succeeds, the subprocess exits with code 0,
and no markdown artifact is found (the directory is missing or the glob is
empty), the job transitions to `failed` with the fixed sentinel message
`noResultSentinel` (the source's Chinese string; the claim's quoted English
text is its rendering). -/
theorem no_artifact_sentinel (env : ProcEnv) (t : Task)
    (hmk : env.mkdirResult = .ok ())
    (hrc : env.returncode = 0)
    (hmd : (if env.markdownDirExists then env.globResults else []) = []) :
    (process_document env t).1.status = "failed" ∧
    (process_document env t).1.error = some noResultSentinel := by
  unfold process_document processTry
  rw [hmk]
  simp [hrc, hmd]

/-- Witness for C6's amended theorem: subprocess succeeds, no markdown file. -/
theorem no_artifact_sentinel_witness :
    (process_document envNoMd taskFresh).1.status = "failed" ∧
    (process_document envNoMd taskFresh).1.error = some noResultSentinel :=
  no_artifact_sentinel envNoMd taskFresh rfl rfl rfl

/-- Counterexample to C6 as stated: the recorded sentinel is the source's
Chinese string, not the literal English text the claim quotes. -/
theorem no_artifact_sentinel_cex :
    (process_document envNoMd taskFresh).1.error = some "处理完成但未找到结果文件" ∧
    (process_document envNoMd taskFresh).1.error ≠
      some "processing completed but no result file found" :=
  ⟨rfl, by decide⟩

/-! ### Lemmas about the upload read loop -/

theorem recvLoop_done_of_le (limit : Nat) (reads : List (Except String Nat))
    (acc : Nat) (hgood : reads.all goodRead = true)
    (hle : acc + chunkSum reads ≤ limit) :
    recvLoop limit reads acc = .done (acc + chunkSum reads) := by
  induction reads generalizing acc with
  | nil => simp [recvLoop, chunkSum]
  | cons r rest ih =>
    rcases r with e | n
    · simp [List.all_cons, goodRead] at hgood
    · rw [List.all_cons] at hgood
      have hn : (n != 0) = true := by
        have := Bool.and_elim_left hgood
        simpa [goodRead] using this
      have hrest : rest.all goodRead = true := Bool.and_elim_right hgood
      rw [chunkSum] at hle ⊢
      unfold recvLoop
      rw [bne_iff_ne] at hn
      simp only [hn, if_false]
      have hnl : ¬(acc + n > limit) := by omega
      simp only [hnl, if_false]
      have := ih (acc + n) hrest (by omega)
      rw [this]
      congr 1
      omega

theorem recvLoop_tooLarge_of_gt (limit : Nat) (reads : List (Except String Nat))
    (acc : Nat) (hgood : reads.all goodRead = true)
    (hacc : acc ≤ limit) (hgt : limit < acc + chunkSum reads) :
    ∃ s, recvLoop limit reads acc = .tooLarge s := by
  induction reads generalizing acc with
  | nil =>
    rw [chunkSum] at hgt
    omega
  | cons r rest ih =>
    rcases r with e | n
    · simp [List.all_cons, goodRead] at hgood
    · rw [List.all_cons] at hgood
      have hn : (n != 0) = true := by
        have := Bool.and_elim_left hgood
        simpa [goodRead] using this
      have hrest : rest.all goodRead = true := Bool.and_elim_right hgood
      rw [chunkSum] at hgt
      unfold recvLoop
      rw [bne_iff_ne] at hn
      simp only [hn, if_false]
      by_cases hl : acc + n > limit
      · exact ⟨acc + n, by simp only [hl, if_true]⟩
      · push_neg at hl
        have := ih (acc + n) hrest hl (by omega)
        simpa [show ¬(acc + n > limit) by omega] using this

/-- C4: an upload (with an allowed extension, streamed as successfully read,
non-empty chunks) whose received byte count is exactly
`max_file_size_mb * 2^20` succeeds and creates a queued job; a received byte
count at least one byte over that bound fails with the 413 error.  The
decision depends only on the received chunks — the model takes no size
header at all. -/
theorem size_boundary (maxMB : Nat) (allowed : List String)
    (freshId now username filename tempName : String)
    (reads : List (Except String Nat)) (st : Store)
    (hext : allowed.contains (pathSuffix (strToLower filename)) = true)
    (hgood : reads.all goodRead = true) :
    (chunkSum reads = maxMB * 1024 * 1024 →
      (upload_document maxMB allowed freshId now username filename tempName
          reads st).result =
        .ok { task_id := freshId, status := "queued", created_at := now } ∧
      (upload_document maxMB allowed freshId now username filename tempName
          reads st).store.tasks =
        st.tasks ++ [(freshId, queuedTask (freshId ++ "_" ++ filename) now username)] ∧
      (queuedTask (freshId ++ "_" ++ filename) now username).status = "queued") ∧
    (maxMB * 1024 * 1024 < chunkSum reads →
      (upload_document maxMB allowed freshId now username filename tempName
          reads st).result = .error (payloadTooLargeErr maxMB) ∧
      (payloadTooLargeErr maxMB).code = 413) := by
  have hmem : pathSuffix (strToLower filename) ∈ allowed := by simpa using hext
  constructor
  · intro heq
    have hd := recvLoop_done_of_le (maxMB * 1024 * 1024) reads 0 hgood (by omega)
    unfold upload_document
    simp [hmem, hd, unlinkTemp, queuedTask]
  · intro hgt
    obtain ⟨s, hs⟩ :=
      recvLoop_tooLarge_of_gt (maxMB * 1024 * 1024) reads 0 hgood (Nat.zero_le _)
        (by omega)
    unfold upload_document
    simp [hmem, hs, payloadTooLargeErr]

/-- Witness for C4: a 1 MB upload against a 1 MB limit succeeds and creates
the queued job. -/
theorem size_boundary_witness :
    (upload_document 1 [".pdf"] "id1" "t0" "alice" "a.pdf" "tmp0"
        [Except.ok 1048576] store0).result =
      .ok { task_id := "id1", status := "queued", created_at := "t0" } ∧
    (upload_document 1 [".pdf"] "id1" "t0" "alice" "a.pdf" "tmp0"
        [Except.ok 1048576] store0).store.tasks =
      store0.tasks ++ [("id1", queuedTask ("id1" ++ "_" ++ "a.pdf") "t0" "alice")] ∧
    (queuedTask ("id1" ++ "_" ++ "a.pdf") "t0" "alice").status = "queued" :=
  (size_boundary 1 [".pdf"] "id1" "t0" "alice" "a.pdf" "tmp0"
      [Except.ok 1048576] store0 (by decide) (by decide)).1 (by decide)

/-- C7: on every exit path of the upload handler — extension failure (before
the temporary file exists), size failure, staging fault, or success — the
temporary staging file is not present in the final state. -/
theorem temp_file_removed (maxMB : Nat) (allowed : List String)
    (freshId now username filename tempName : String)
    (reads : List (Except String Nat)) (st : Store)
    (hfresh : tempName ∉ st.tempFiles) :
    tempName ∉ (upload_document maxMB allowed freshId now username filename
        tempName reads st).store.tempFiles := by
  unfold upload_document
  cases hext : allowed.contains (pathSuffix (strToLower filename))
  · have hmem : pathSuffix (strToLower filename) ∉ allowed := by simpa using hext
    simpa [hmem] using hfresh
  · have hmem : pathSuffix (strToLower filename) ∈ allowed := by simpa using hext
    cases hr : recvLoop (maxMB * 1024 * 1024) reads 0 with
    | done s => simp [hmem, hr, unlinkTemp]
    | tooLarge s => simp [hmem, hr, unlinkTemp]
    | fault e => simp [hmem, hr, unlinkTemp]

/-- Witness for C7: an oversized upload (1 byte against a 0 MB limit) leaves
no temporary file behind. -/
theorem temp_file_removed_witness :
    "tmp0" ∉ (upload_document 0 [".pdf"] "id1" "t0" "alice" "a.pdf" "tmp0"
        [Except.ok 1] store0).store.tempFiles :=
  temp_file_removed 0 [".pdf"] "id1" "t0" "alice" "a.pdf" "tmp0"
    [Except.ok 1] store0 (by simp [store0])

/-- C9: every failing upload — disallowed extension, size limit exceeded, or
a staging fault — leaves the registry, the persisted files and the temporary
files exactly as they were, and never reaches the job-identifier generation. -/
theorem failed_upload_no_effect (maxMB : Nat) (allowed : List String)
    (freshId now username filename tempName : String)
    (reads : List (Except String Nat)) (st : Store) (e : HError)
    (hfresh : tempName ∉ st.tempFiles)
    (hfail : (upload_document maxMB allowed freshId now username filename
        tempName reads st).result = .error e) :
    (upload_document maxMB allowed freshId now username filename tempName
        reads st).store.tasks = st.tasks ∧
    (upload_document maxMB allowed freshId now username filename tempName
        reads st).store.workFiles = st.workFiles ∧
    (upload_document maxMB allowed freshId now username filename tempName
        reads st).store.tempFiles = st.tempFiles ∧
    (upload_document maxMB allowed freshId now username filename tempName
        reads st).idGenerated = false := by
  unfold upload_document at hfail ⊢
  cases hext : allowed.contains (pathSuffix (strToLower filename))
  · have hmem : pathSuffix (strToLower filename) ∉ allowed := by simpa using hext
    simp [hmem]
  · have hmem : pathSuffix (strToLower filename) ∈ allowed := by simpa using hext
    cases hr : recvLoop (maxMB * 1024 * 1024) reads 0 with
    | done s => simp [hmem, hr] at hfail
    | tooLarge s =>
      simp [hmem, hr, unlinkTemp,
        filter_bne_append_self st.tempFiles tempName hfresh]
    | fault msg =>
      simp [hmem, hr, unlinkTemp,
        filter_bne_append_self st.tempFiles tempName hfresh]

/-- Witness for C9: an upload of `malware.exe` is rejected by the extension
check and leaves the empty state untouched. -/
theorem failed_upload_no_effect_witness :
    (upload_document 1 [".pdf"] "id1" "t0" "alice" "malware.exe" "tmp0"
        [] store0).store.tasks = store0.tasks ∧
    (upload_document 1 [".pdf"] "id1" "t0" "alice" "malware.exe" "tmp0"
        [] store0).store.workFiles = store0.workFiles ∧
    (upload_document 1 [".pdf"] "id1" "t0" "alice" "malware.exe" "tmp0"
        [] store0).store.tempFiles = store0.tempFiles ∧
    (upload_document 1 [".pdf"] "id1" "t0" "alice" "malware.exe" "tmp0"
        [] store0).idGenerated = false :=
  failed_upload_no_effect 1 [".pdf"] "id1" "t0" "alice" "malware.exe" "tmp0"
    [] store0 (extErr [".pdf"]) (by simp [store0]) (by decide)

end Olmocr
